import Mathlib

/-!
Shallow embedding of `ckan-dataset-downloader.py` (City of Cape Town CKAN
dataset downloader) and proofs of the specified properties.

The script has two core routines plus a thin orchestration block:
  * `_get_dataset_metadata` (src lines 26-53): one HTTP GET against the
    package-lookup endpoint; 200 returns the JSON body's `result` field,
    404 raises, anything else logs and returns `None`.
  * `_form_dataset_resources_lookup` (src lines 56-77): calls the above,
    raises on a `None` result, otherwise builds a dict comprehension
    `{resource["name"]: resource["url"] for resource in metadata["resources"]}`.
  * `_get_resource_file` (src lines 80-95): a bounded retry loop around
    `http_session.get`, sleeping `RETRY_DELAY_FACTOR * (t + 1)` seconds
    inside the `except` handler, and re-raising the last captured
    exception when the loop ends.
  * `__main__` (src lines 98-156): argument handling and the regex filter
    over the resolved mapping.

HTTP transport, JSON text parsing and the raised Python exceptions are
embedded explicitly: a response is a status code plus an already-parsed
JSON body; a raised exception becomes the `error` branch of `Except`;
Python `d[k]` on a dict becomes `jsonIndex`, whose failure is `keyError`
(missing key) or `typeError` (subscripting a non-object).
-/

/-- JSON values, as produced by `resp.json()`.  Only the shapes the script
touches are needed: strings, arrays and string-keyed objects (an object's
key/value pairs are kept in document order, as Python's parser does). -/
inductive Json where
  | null : Json
  | str (s : String) : Json
  | arr (xs : List Json) : Json
  | obj (kvs : List (String × Json)) : Json
deriving Repr

mutual

def Json.decEq : (a b : Json) → Decidable (a = b)
  | .null, .null => isTrue rfl
  | .null, .str _ => isFalse (fun h => Json.noConfusion h)
  | .null, .arr _ => isFalse (fun h => Json.noConfusion h)
  | .null, .obj _ => isFalse (fun h => Json.noConfusion h)
  | .str _, .null => isFalse (fun h => Json.noConfusion h)
  | .str a, .str b =>
      match String.decEq a b with
      | isTrue h => isTrue (by rw [h])
      | isFalse h => isFalse (fun hh => h (by cases hh; rfl))
  | .str _, .arr _ => isFalse (fun h => Json.noConfusion h)
  | .str _, .obj _ => isFalse (fun h => Json.noConfusion h)
  | .arr _, .null => isFalse (fun h => Json.noConfusion h)
  | .arr _, .str _ => isFalse (fun h => Json.noConfusion h)
  | .arr xs, .arr ys =>
      match Json.decEqList xs ys with
      | isTrue h => isTrue (by rw [h])
      | isFalse h => isFalse (fun hh => h (by cases hh; rfl))
  | .arr _, .obj _ => isFalse (fun h => Json.noConfusion h)
  | .obj _, .null => isFalse (fun h => Json.noConfusion h)
  | .obj _, .str _ => isFalse (fun h => Json.noConfusion h)
  | .obj _, .arr _ => isFalse (fun h => Json.noConfusion h)
  | .obj xs, .obj ys =>
      match Json.decEqKvs xs ys with
      | isTrue h => isTrue (by rw [h])
      | isFalse h => isFalse (fun hh => h (by cases hh; rfl))

def Json.decEqList : (a b : List Json) → Decidable (a = b)
  | [], [] => isTrue rfl
  | [], _ :: _ => isFalse (fun h => List.noConfusion h)
  | _ :: _, [] => isFalse (fun h => List.noConfusion h)
  | x :: xs, y :: ys =>
      match Json.decEq x y, Json.decEqList xs ys with
      | isTrue h1, isTrue h2 => isTrue (by rw [h1, h2])
      | isFalse h1, _ => isFalse (fun h => h1 (by cases h; rfl))
      | _, isFalse h2 => isFalse (fun h => h2 (by cases h; rfl))

def Json.decEqKvs : (a b : List (String × Json)) → Decidable (a = b)
  | [], [] => isTrue rfl
  | [], _ :: _ => isFalse (fun h => List.noConfusion h)
  | _ :: _, [] => isFalse (fun h => List.noConfusion h)
  | (k1, v1) :: xs, (k2, v2) :: ys =>
      match String.decEq k1 k2, Json.decEq v1 v2, Json.decEqKvs xs ys with
      | isTrue h1, isTrue h2, isTrue h3 => isTrue (by rw [h1, h2, h3])
      | isFalse h1, _, _ => isFalse (fun h => h1 (by cases h; rfl))
      | _, isFalse h2, _ => isFalse (fun h => h2 (by cases h; rfl))
      | _, _, isFalse h3 => isFalse (fun h => h3 (by cases h; rfl))

end

instance : DecidableEq Json := Json.decEq

instance {ε α : Type} [DecidableEq ε] [DecidableEq α] :
    DecidableEq (Except ε α) := fun a b =>
  match a, b with
  | .ok x, .ok y =>
      match decEq x y with
      | isTrue h => isTrue (by rw [h])
      | isFalse h => isFalse (fun hh => h (by cases hh; rfl))
  | .error x, .error y =>
      match decEq x y with
      | isTrue h => isTrue (by rw [h])
      | isFalse h => isFalse (fun hh => h (by cases hh; rfl))
  | .ok _, .error _ => isFalse (fun h => Except.noConfusion h)
  | .error _, .ok _ => isFalse (fun h => Except.noConfusion h)

/-- An HTTP response as the script consumes it: `resp.status_code` plus
the parsed JSON body (`resp.json()`).  The fetcher never looks at either
field, so one structure serves both request shapes. -/
structure HttpResponse where
  status_code : Nat
  body : Json
deriving Repr

instance : DecidableEq HttpResponse := fun a b =>
  match a, b with
  | ⟨s1, b1⟩, ⟨s2, b2⟩ =>
      match Nat.decEq s1 s2, Json.decEq b1 b2 with
      | isTrue h1, isTrue h2 => isTrue (by rw [h1, h2])
      | isFalse h1, _ => isFalse (fun h => h1 (by cases h; rfl))
      | _, isFalse h2 => isFalse (fun h => h2 (by cases h; rfl))

/-- The exceptions the script can raise while resolving a dataset.
`datasetNotFound` is the `RuntimeError` at src line 48 (its message names
the dataset id and the CKAN URL); `datasetUnavailable` is the
`RuntimeError` at src line 70 (its message names only the dataset);
`keyError`/`typeError` are Python's lookup errors from `d[k]` on a dict
missing the key, resp. subscripting/iterating a non-object. -/
inductive DownloaderError where
  | datasetNotFound (id_str ckan_url : String)
  | datasetUnavailable (dataset_name : String)
  | keyError (key : String)
  | typeError
deriving DecidableEq, Repr

/-- Python `j[key]` for a parsed JSON value `j`: a `KeyError` when the
object lacks the key, a `TypeError` when `j` is not an object. -/
def jsonIndex (j : Json) (key : String) : Except DownloaderError Json :=
  match j with
  | .obj kvs =>
      match kvs.find? (fun p => p.1 = key) with
      | some p => .ok p.2
      | none => .error (.keyError key)
  | _ => .error .typeError

/-- Whether an `Except` computation succeeded. -/
def exOk : Except ε α → Bool
  | .ok _ => true
  | .error _ => false

-- INTERNAL CONSTANTS (src lines 22-23)
def RETRY_DELAY_FACTOR : Nat := 10
def RETRIES : Nat := 3

/-- Embedding of `_get_dataset_metadata` (src lines 26-53), applied to the single
response the one `session.get` call produces (the source performs exactly
one request here, with no loop).  On 200 it evaluates
`resp.json()["result"]`; on 404 it raises the not-found `RuntimeError`;
on any other status it logs and returns `None` (`.ok none`). -/
def _get_dataset_metadata (id_str : String) (ckan_url : String)
    (resp : HttpResponse) : Except DownloaderError (Option Json) :=
  if resp.status_code = 200 then
    (jsonIndex resp.body "result").map some
  else if resp.status_code = 404 then
    .error (.datasetNotFound id_str ckan_url)
  else
    .ok none

/-- One assignment `d[k] = v` on a Python dict represented as its
key/value pairs in insertion order: an existing equal key keeps its
position and gets the new value, a new key is appended at the end. -/
def pyDictInsert {κ ν : Type} [DecidableEq κ] :
    List (κ × ν) → κ → ν → List (κ × ν)
  | [], k, v => [(k, v)]
  | q :: d, k, v => if q.1 = k then (k, v) :: d else q :: pyDictInsert d k v

/-- Python `d[k]` on such a dict, as an `Option`. -/
def dictGet {κ ν : Type} [DecidableEq κ] : List (κ × ν) → κ → Option ν
  | [], _ => none
  | q :: d, k => if q.1 = k then some q.2 else dictGet d k

/-- One iteration of the dict comprehension at src lines 72-75: evaluate
`resource["name"]` and `resource["url"]`, then perform the insertion; a
failing field lookup aborts the comprehension with that error. -/
def lookupStep (d : List (Json × Json)) (r : Json) :
    Except DownloaderError (List (Json × Json)) := do
  let n ← jsonIndex r "name"
  let u ← jsonIndex r "url"
  pure (pyDictInsert d n u)

/-- The dict comprehension at src lines 72-75:
`{resource["name"]: resource["url"] for resource in resources}`, built by
inserting each descriptor's name/url pair left to right from `{}`. -/
def buildResourcesLookup (resources : List Json) :
    Except DownloaderError (List (Json × Json)) :=
  resources.foldlM lookupStep []

/-- Embedding of `_form_dataset_resources_lookup` (src lines 56-77): fetch the
metadata, raise on a `None` result, then build the name → url dict from
`metadata["resources"]` (iterating a non-array is a `TypeError`). -/
def _form_dataset_resources_lookup (dataset_name ckan_url : String)
    (resp : HttpResponse) : Except DownloaderError (List (Json × Json)) := do
  match ← _get_dataset_metadata dataset_name ckan_url resp with
  | none => .error (.datasetUnavailable dataset_name)
  | some md =>
      match ← jsonIndex md "resources" with
      | .arr rs => buildResourcesLookup rs
      | _ => .error .typeError

/-- The retry loop of `_get_resource_file` (src lines 81-95).  `transport t`
is the outcome of the `http_session.get` call on attempt `t` (a response,
or the raised transport exception).  Arguments: current attempt index,
remaining attempts, `last_exception`, and the sleeps performed so far in
reverse order.  Returns the script's outcome — the returned response, or
the re-raised `last_exception` (still `none` if the loop never ran) —
paired with the list of sleep durations in the order they happened. -/
def fetchGo (transport : Nat → Except ε ρ) (factor : Nat) :
    Nat → Nat → Option ε → List Nat → (Except (Option ε) ρ) × List Nat
  | _, 0, lastExc, sleeps => (.error lastExc, sleeps.reverse)
  | t, rem + 1, _, sleeps =>
      match transport t with
      | .ok r => (.ok r, sleeps.reverse)
      | .error e =>
          fetchGo transport factor (t + 1) rem (some e) (factor * (t + 1) :: sleeps)

/-- Embedding of `_get_resource_file` (src lines 80-95), with the retry count and the
backoff factor exposed as the parameters the spec calls `maxRetries` and
`backoffFactorSeconds` (the source fixes them to `RETRIES` and
`RETRY_DELAY_FACTOR`).  The sleep happens inside the `except` handler,
i.e. after every failed attempt, the last one included. -/
def _get_resource_file (transport : Nat → Except ε ρ)
    (retries factor : Nat) : (Except (Option ε) ρ) × List Nat :=
  fetchGo transport factor 0 retries none []

/-- The header dict literal `{"X-CKAN-API-Key": ckan_api_key}` built at
both request sites (src lines 40 and 86); `ckan_api_key` is `None` when
`--ckan-api-key` is not given (src line 103), hence an `Option`. -/
def ckanHeaderDict (ckan_api_key : Option String) : List (String × Option String) :=
  [("X-CKAN-API-Key", ckan_api_key)]

/-- The headers the transport actually sends for such a dict.  Models the
documented behavior of the `requests` library (external collaborator):
`Session.prepare_request` merges headers with `merge_setting`, which
deletes every header whose value is `None`, so a `None`-valued entry is
never sent on the wire. -/
def sentHeaderList (hs : List (String × Option String)) : List (String × String) :=
  hs.filterMap (fun p => p.2.map (fun v => (p.1, v)))

/-- The filtering comprehension at src lines 136-140: keep a `(name, url)`
pair when the compiled regex finds a match in the name, or keep everything
when `--resource-name-regex` was not given (`filter_regex` is `None`). -/
def filterResourceList {κ ν : Type} (filter_regex : Option (κ → Bool))
    (d : List (κ × ν)) : List (κ × ν) :=
  d.filter (fun p =>
    match filter_regex with
    | some f => f p.1
    | none => true)

/-- Semantics of `re.compile("^a").search(s)` as a predicate: with no multiline flag,
`^` anchors at the start of the string, so the search succeeds exactly
when the first character of `s` is `a`. -/
def reSearchCaretA (s : String) : Bool :=
  match s.data with
  | [] => false
  | c :: _ => c = 'a'

/-- The orchestration up to the point where downloads begin (src lines
130-140): resolve the dataset's resources, then filter by the optional
name regex.  The `__main__` block calls `_get_resource_file` once per
element of the returned list, so an `error` result means no download
request is ever issued. -/
def downloadPlan (dataset_name ckan_url : String) (resp : HttpResponse)
    (filter_regex : Option (Json → Bool)) :
    Except DownloaderError (List (Json × Json)) := do
  let d ← _form_dataset_resources_lookup dataset_name ckan_url resp
  pure (filterResourceList filter_regex d)

/-- The name a descriptor contributes as dict key (total version; under
well-formedness it is exactly `resource["name"]`). -/
def descrNameD (r : Json) : Json :=
  match jsonIndex r "name" with
  | .ok v => v
  | .error _ => .null

/-- The url a descriptor contributes as dict value (total version). -/
def descrUrlD (r : Json) : Json :=
  match jsonIndex r "url" with
  | .ok v => v
  | .error _ => .null

/-- The `(name, url)` pairs of a resource list, in document order. -/
def extractPairs (rs : List Json) : List (Json × Json) :=
  rs.map (fun r => (descrNameD r, descrUrlD r))

/-- A descriptor carrying both fields the comprehension reads. -/
def wellFormedDescr (r : Json) : Bool :=
  exOk (jsonIndex r "name") && exOk (jsonIndex r "url")

/-- The dict that inserting a pair list left to right produces. -/
def pyDictOfPairs {κ ν : Type} [DecidableEq κ] (l : List (κ × ν)) : List (κ × ν) :=
  l.foldl (fun d q => pyDictInsert d q.1 q.2) []

/-- The linear-backoff sleep durations an attempt sequence starting at
index `t` produces: `factor * (t + 1), factor * (t + 2), ...`. -/
def backoffList (factor t : Nat) : Nat → List Nat
  | 0 => []
  | n + 1 => factor * (t + 1) :: backoffList factor (t + 1) n

/-- The value of the last entry of `l` carrying key `k`, if any — the
"last-occurring descriptor wins" reading of the spec. -/
def lastValue {κ ν : Type} [DecidableEq κ] : List (κ × ν) → κ → Option ν
  | [], _ => none
  | q :: l, k =>
      match lastValue l k with
      | some v => some v
      | none => if q.1 = k then some q.2 else none

/-- First-some choice on options (used to state the fold invariant). -/
def optOrElse {ν : Type} : Option ν → Option ν → Option ν
  | some v, _ => some v
  | none, o => o

/-- Python lookup errors, as opposed to the script's own `RuntimeError`s. -/
def isLookupErr : DownloaderError → Bool
  | .keyError _ => true
  | .typeError => true
  | _ => false

/-- Whether a resolution outcome is an escaped Python lookup error. -/
def resultIsLookupErr : Except DownloaderError α → Bool
  | .error e => isLookupErr e
  | .ok _ => false

/-! ## Retry-loop lemmas -/

/-- The sleep list starting at attempt `t` matches the spec's formula
`backoffFactorSeconds * (attemptIndex + 1)`. -/
theorem backoffList_eq_range_map (factor : Nat) :
    ∀ (n t : Nat),
      backoffList factor t n = (List.range n).map (fun j => factor * (t + j + 1))
  | 0, _ => rfl
  | n + 1, t => by
      rw [List.range_succ_eq_map, List.map_cons, List.map_map]
      show factor * (t + 1) :: backoffList factor (t + 1) n = _
      rw [backoffList_eq_range_map factor n (t + 1)]
      congr 1
      apply List.map_congr_left
      intro j _
      show factor * (t + 1 + j + 1) = factor * (t + (j + 1) + 1)
      ring

/-- One failed attempt: the exception is captured, the backoff sleep is
performed, and the loop moves to the next attempt. -/
theorem fetchGo_step_err {ε ρ : Type} (transport : Nat → Except ε ρ)
    (factor t rem : Nat) (le : Option ε) (sl : List Nat) (e : ε)
    (h : transport t = Except.error e) :
    fetchGo transport factor t (rem + 1) le sl
      = fetchGo transport factor (t + 1) rem (some e) (factor * (t + 1) :: sl) := by
  simp [fetchGo, h]

/-- One completed attempt: the response is returned immediately. -/
theorem fetchGo_step_ok {ε ρ : Type} (transport : Nat → Except ε ρ)
    (factor t rem : Nat) (le : Option ε) (sl : List Nat) (r : ρ)
    (h : transport t = Except.ok r) :
    fetchGo transport factor t (rem + 1) le sl = (Except.ok r, sl.reverse) := by
  simp [fetchGo, h]

/-- Running the retry loop from attempt `t` with `n + 1` attempts left
against a transport that raises on every attempt: every attempt fails and
is followed by its backoff sleep (the last one included), and the loop
ends by re-raising the exception of the final attempt `t + n`. -/
theorem fetchGo_fail {ε ρ : Type} (f : Nat → ε) (factor : Nat) :
    ∀ (n t : Nat) (le : Option ε) (sl : List Nat),
      fetchGo (ρ := ρ) (fun i => Except.error (f i)) factor t (n + 1) le sl
        = (Except.error (some (f (t + n))),
           sl.reverse ++ backoffList factor t (n + 1))
  | 0, t, le, sl => by
      rw [fetchGo_step_err _ factor t 0 le sl (f t) rfl]
      simp [fetchGo, backoffList]
  | n + 1, t, le, sl => by
      have ih := fetchGo_fail (ρ := ρ) f factor n (t + 1) (some (f t))
        (factor * (t + 1) :: sl)
      rw [fetchGo_step_err _ factor t (n + 1) le sl (f t) rfl, ih]
      have harg : t + 1 + n = t + (n + 1) := by omega
      rw [harg]
      simp [backoffList, List.reverse_cons, List.append_assoc]

/-- Running the retry loop from attempt `t` when the transport raises on
the `k` attempts `t, ..., t + k - 1` and completes on attempt `t + k`
(which the remaining budget still covers): the completed response is
returned as-is and exactly the `k` failed attempts are followed by a
sleep. -/
theorem fetchGo_firstOk {ε ρ : Type} (transport : Nat → Except ε ρ)
    (f : Nat → ε) (r : ρ) (factor : Nat) :
    ∀ (k t n : Nat) (le : Option ε) (sl : List Nat),
      (∀ j, j < k → transport (t + j) = Except.error (f (t + j))) →
      transport (t + k) = Except.ok r →
      fetchGo transport factor t (k + (n + 1)) le sl
        = (Except.ok r, sl.reverse ++ backoffList factor t k)
  | 0, t, n, le, sl, _, hOk => by
      simp only [Nat.add_zero] at hOk
      simp only [Nat.zero_add]
      rw [fetchGo_step_ok _ factor t n le sl r hOk]
      simp [backoffList]
  | k + 1, t, n, le, sl, hFail, hOk => by
      have h0 : transport t = Except.error (f t) := by
        have := hFail 0 (by omega)
        simpa using this
      have hFail' : ∀ j, j < k → transport (t + 1 + j) = Except.error (f (t + 1 + j)) := by
        intro j hj
        have harg : t + 1 + j = t + (j + 1) := by omega
        rw [harg]
        exact hFail (j + 1) (by omega)
      have hOk' : transport (t + 1 + k) = Except.ok r := by
        have harg : t + 1 + k = t + (k + 1) := by omega
        rw [harg]
        exact hOk
      have ih := fetchGo_firstOk transport f r factor k (t + 1) n (some (f t))
        (factor * (t + 1) :: sl) hFail' hOk'
      have hrem : k + 1 + (n + 1) = (k + (n + 1)) + 1 := by omega
      rw [hrem, fetchGo_step_err transport factor t (k + (n + 1)) le sl (f t) h0, ih]
      simp [backoffList, List.reverse_cons, List.append_assoc]

/-! ## Claim theorems: the Resource Fetcher -/

/-- C1, counterexample: the claim says that when all `maxRetries = 3`
attempts raise, exactly 2 sleeps occur and the final failed attempt is
not followed by a sleep.  On a transport that raises on every attempt,
the source's loop (sleep inside the `except` handler) performs 3 sleeps
of 10, 20 and 30 seconds — one after the final failed attempt as well. -/
theorem C1_three_sleeps_counterexample :
    ((_get_resource_file (fun i => Except.error i) RETRIES RETRY_DELAY_FACTOR
        : Except (Option Nat) Nat × List Nat).2 = [10, 20, 30])
    ∧ ((_get_resource_file (fun i => Except.error i) RETRIES RETRY_DELAY_FACTOR
        : Except (Option Nat) Nat × List Nat).2.length ≠ 2) := by
  constructor
  · decide
  · decide

/-- C1 (amended): for every call to `_get_resource_file` in which all
`maxRetries` attempts raise a transport exception, exactly `maxRetries`
sleeps occur — after the failed attempt at index `t` (for `t` from `0` to
`maxRetries - 1`, the final attempt included) the fetcher sleeps
`backoffFactorSeconds * (t + 1)` seconds — and then the routine fails
with the last attempt's exception.  With `maxRetries = 3` this is exactly
3 attempts and 3 sleeps of 10, 20 and 30 seconds. -/
theorem C1_sleeps_on_exhaustion :
    (∀ (ε ρ : Type) (f : Nat → ε) (factor n : Nat),
      _get_resource_file (ρ := ρ) (fun i => Except.error (f i)) (n + 1) factor
        = (Except.error (some (f n)),
           (List.range (n + 1)).map (fun j => factor * (j + 1))))
    ∧ (_get_resource_file (fun i => Except.error i) RETRIES RETRY_DELAY_FACTOR
        : Except (Option Nat) Nat × List Nat)
      = (Except.error (some 2), [10, 20, 30]) := by
  constructor
  · intro ε ρ f factor n
    unfold _get_resource_file
    rw [fetchGo_fail, backoffList_eq_range_map]
    simp
  · decide

/-- C3: when all attempts raise, the exception ultimately re-raised is
the one captured from the last attempt (index `n` out of `n + 1`
attempts), not the first or any earlier one. -/
theorem C3_raises_last_attempt_error :
    ∀ (ε ρ : Type) (f : Nat → ε) (factor n : Nat),
      (_get_resource_file (ρ := ρ) (fun i => Except.error (f i)) (n + 1) factor).1
        = Except.error (some (f n)) := by
  intro ε ρ f factor n
  unfold _get_resource_file
  rw [fetchGo_fail]
  simp

/-- C4: with `maxRetries = 3` (`RETRIES`), a transport that raises on the
first two attempts and completes on the third makes the routine return
the successful response after sleeping exactly twice, for
`backoffFactorSeconds * 1` then `backoffFactorSeconds * 2` seconds, in
that order. -/
theorem C4_two_failures_then_success :
    ∀ (ε ρ : Type) (e0 e1 : ε) (r : ρ) (factor : Nat),
      _get_resource_file
          (fun t => if t = 0 then Except.error e0
                    else if t = 1 then Except.error e1 else Except.ok r)
          RETRIES factor
        = (Except.ok r, [factor * 1, factor * 2]) := by
  intro ε ρ e0 e1 r factor
  rfl

/-- C7: the first attempt that completes at the transport level is
returned as-is, whatever its response (in particular an `HttpResponse`
with status code 500 is returned without any retry); only the preceding
transport-level exceptions cause retries and sleeps. -/
theorem C7_first_completion_returned :
    (∀ (ε : Type) (f : Nat → ε) (k n factor : Nat) (r : HttpResponse),
      _get_resource_file
          (fun i => if i < k then Except.error (f i) else Except.ok r)
          (k + (n + 1)) factor
        = (Except.ok r, (List.range k).map (fun j => factor * (j + 1))))
    ∧ (_get_resource_file (fun _ => Except.ok (HttpResponse.mk 500 Json.null))
          RETRIES RETRY_DELAY_FACTOR : Except (Option Nat) HttpResponse × List Nat)
        = (Except.ok (HttpResponse.mk 500 Json.null), []) := by
  constructor
  · intro ε f k n factor r
    unfold _get_resource_file
    rw [fetchGo_firstOk _ f r factor k 0 n none []
      (by intro j hj; simp [hj]) (by simp)]
    rw [backoffList_eq_range_map]
    simp
  · rfl

/-! ## Dict-comprehension lemmas -/

/-- Bind of a successful `Except` computation. -/
theorem except_bind_ok {ε α β : Type} (a : α) (f : α → Except ε β) :
    (Except.ok (ε := ε) a >>= f) = f a := rfl

/-- Looking a key up after one dict assignment. -/
theorem dictGet_pyDictInsert {κ ν : Type} [DecidableEq κ] :
    ∀ (d : List (κ × ν)) (a k : κ) (v : ν),
      dictGet (pyDictInsert d a v) k = if a = k then some v else dictGet d k
  | [], a, k, v => by simp [pyDictInsert, dictGet]
  | q :: d, a, k, v => by
      simp only [pyDictInsert]
      by_cases hqa : q.1 = a
      · rw [if_pos hqa]
        by_cases hak : a = k
        · simp [dictGet, hak]
        · have hqk : ¬ q.1 = k := by rw [hqa]; exact hak
          simp [dictGet, hak, hqk]
      · rw [if_neg hqa]
        by_cases hqk : q.1 = k
        · have hak : ¬ a = k := fun h => hqa (hqk.trans h.symm)
          simp [dictGet, hqk, hak]
        · simp [dictGet, hqk, dictGet_pyDictInsert d a k v]

/-- Folding assignments over a starting dict: a key's value comes from
the last pair of the list carrying it, and otherwise from the start. -/
theorem dictGet_foldl_insert {κ ν : Type} [DecidableEq κ] :
    ∀ (l d : List (κ × ν)) (k : κ),
      dictGet (l.foldl (fun acc q => pyDictInsert acc q.1 q.2) d) k
        = optOrElse (lastValue l k) (dictGet d k)
  | [], d, k => by simp [lastValue, optOrElse]
  | p :: l, d, k => by
      show dictGet (l.foldl _ (pyDictInsert d p.1 p.2)) k = _
      rw [dictGet_foldl_insert l (pyDictInsert d p.1 p.2) k,
        dictGet_pyDictInsert]
      simp only [lastValue]
      cases hl : lastValue l k with
      | some v => simp [optOrElse]
      | none =>
          by_cases hpk : p.1 = k
          · simp [optOrElse, hpk]
          · simp [optOrElse, hpk]

/-- The derived dict realizes exactly the last-write-wins lookup. -/
theorem dictGet_pyDictOfPairs {κ ν : Type} [DecidableEq κ]
    (l : List (κ × ν)) (k : κ) :
    dictGet (pyDictOfPairs l) k = lastValue l k := by
  unfold pyDictOfPairs
  rw [dictGet_foldl_insert]
  cases hl : lastValue l k <;> simp [optOrElse, dictGet]

/-- A key has a last value exactly when it occurs among the pair keys. -/
theorem lastValue_isSome_iff {κ ν : Type} [DecidableEq κ] :
    ∀ (l : List (κ × ν)) (k : κ),
      (lastValue l k).isSome = true ↔ k ∈ l.map Prod.fst
  | [], k => by simp [lastValue]
  | p :: l, k => by
      simp only [lastValue, List.map_cons, List.mem_cons]
      cases hl : lastValue l k with
      | some v =>
          have hk : k ∈ l.map Prod.fst :=
            (lastValue_isSome_iff l k).mp (by rw [hl]; rfl)
          simp [hk]
      | none =>
          have hk : ¬ k ∈ l.map Prod.fst := by
            intro hmem
            have hs := (lastValue_isSome_iff l k).mpr hmem
            rw [hl] at hs
            exact Bool.noConfusion hs
          by_cases hpk : p.1 = k
          · rw [if_pos hpk]
            simp
            exact Or.inl hpk.symm
          · rw [if_neg hpk]
            simp [hk]
            exact fun h => hpk h.symm

/-- Every error `jsonIndex` produces is a Python lookup error. -/
theorem jsonIndex_err :
    ∀ (r : Json) (key : String) (e : DownloaderError),
      jsonIndex r key = Except.error e → isLookupErr e = true := by
  intro r key e h
  cases r with
  | null => simp only [jsonIndex] at h; injection h with h2; rw [← h2]; rfl
  | str s => simp only [jsonIndex] at h; injection h with h2; rw [← h2]; rfl
  | arr xs => simp only [jsonIndex] at h; injection h with h2; rw [← h2]; rfl
  | obj kvs =>
      simp only [jsonIndex] at h
      cases hf : kvs.find? (fun p => p.1 = key) with
      | some p => rw [hf] at h; exact Except.noConfusion h
      | none => rw [hf] at h; injection h with h2; rw [← h2]; rfl

/-- On a list of descriptors that all carry `name` and `url`, the dict
comprehension succeeds and equals the pure left fold of the extracted
`(name, url)` pairs. -/
theorem foldlM_lookupStep_ok :
    ∀ (rs : List Json) (d : List (Json × Json)),
      rs.all wellFormedDescr = true →
      rs.foldlM lookupStep d
        = Except.ok
            ((extractPairs rs).foldl (fun acc q => pyDictInsert acc q.1 q.2) d)
  | [], _, _ => rfl
  | r :: rs, d, h => by
      rw [List.all_cons, Bool.and_eq_true] at h
      obtain ⟨hr, hrs⟩ := h
      rw [wellFormedDescr, Bool.and_eq_true] at hr
      obtain ⟨hn, hu⟩ := hr
      cases hn' : jsonIndex r "name" with
      | error e => rw [hn'] at hn; exact Bool.noConfusion hn
      | ok n =>
        cases hu' : jsonIndex r "url" with
        | error e => rw [hu'] at hu; exact Bool.noConfusion hu
        | ok u =>
          have hstep : lookupStep d r = Except.ok (pyDictInsert d n u) := by
            unfold lookupStep
            rw [hn', hu']
            rfl
          show (lookupStep d r >>= fun d2 => rs.foldlM lookupStep d2) = _
          rw [hstep, except_bind_ok, foldlM_lookupStep_ok rs _ hrs]
          simp [extractPairs, descrNameD, descrUrlD, hn', hu']

/-- If some descriptor lacks `name` or `url`, the dict comprehension
escapes with a Python lookup error. -/
theorem foldlM_lookupStep_err :
    ∀ (rs : List Json) (d : List (Json × Json)),
      rs.any (fun r => !wellFormedDescr r) = true →
      resultIsLookupErr (rs.foldlM lookupStep d) = true
  | [], _, h => Bool.noConfusion h
  | r :: rs, d, h => by
      by_cases hwf : wellFormedDescr r = true
      · have hrs : rs.any (fun r => !wellFormedDescr r) = true := by
          rw [List.any_cons] at h
          simpa [hwf] using h
        rw [wellFormedDescr, Bool.and_eq_true] at hwf
        obtain ⟨hn, hu⟩ := hwf
        cases hn' : jsonIndex r "name" with
        | error e => rw [hn'] at hn; exact Bool.noConfusion hn
        | ok n =>
          cases hu' : jsonIndex r "url" with
          | error e => rw [hu'] at hu; exact Bool.noConfusion hu
          | ok u =>
            have hstep : lookupStep d r = Except.ok (pyDictInsert d n u) := by
              unfold lookupStep
              rw [hn', hu']
              rfl
            show resultIsLookupErr
                (lookupStep d r >>= fun d2 => rs.foldlM lookupStep d2) = true
            rw [hstep, except_bind_ok]
            exact foldlM_lookupStep_err rs (pyDictInsert d n u) hrs
      · cases hn' : jsonIndex r "name" with
        | error e =>
            have hstep : lookupStep d r = Except.error e := by
              unfold lookupStep
              rw [hn']
              rfl
            show resultIsLookupErr
                (lookupStep d r >>= fun d2 => rs.foldlM lookupStep d2) = true
            rw [hstep]
            show isLookupErr e = true
            exact jsonIndex_err r "name" e hn'
        | ok n =>
            cases hu' : jsonIndex r "url" with
            | error e =>
                have hstep : lookupStep d r = Except.error e := by
                  unfold lookupStep
                  rw [hn', hu']
                  rfl
                show resultIsLookupErr
                    (lookupStep d r >>= fun d2 => rs.foldlM lookupStep d2) = true
                rw [hstep]
                show isLookupErr e = true
                exact jsonIndex_err r "url" e hu'
            | ok u =>
                exact absurd (by simp [wellFormedDescr, hn', hu', exOk]) hwf

/-! ## Claim theorems: the Metadata Resolver and orchestration -/

/-- C2: for a metadata response with HTTP 200 whose document carries a
well-formed resources array, `_form_dataset_resources_lookup` returns the
dict obtained by inserting each `(name, url)` pair in order; that dict
maps every key to the url of the last-occurring descriptor with that name
(last-write-wins, no collision error), and its key set is exactly the set
of resource names in the document. -/
theorem C2_lookup_last_write_wins (ds curl : String) (body md : Json)
    (rs : List Json)
    (hres : jsonIndex body "result" = Except.ok md)
    (hrs : jsonIndex md "resources" = Except.ok (Json.arr rs))
    (hwf : rs.all wellFormedDescr = true) :
    _form_dataset_resources_lookup ds curl ⟨200, body⟩
        = Except.ok (pyDictOfPairs (extractPairs rs))
      ∧ (∀ k, dictGet (pyDictOfPairs (extractPairs rs)) k
            = lastValue (extractPairs rs) k)
      ∧ (∀ k, (dictGet (pyDictOfPairs (extractPairs rs)) k).isSome = true
            ↔ k ∈ (extractPairs rs).map Prod.fst) := by
  have h1 : _get_dataset_metadata ds curl ⟨200, body⟩ = Except.ok (some md) := by
    simp [_get_dataset_metadata, hres]
    rfl
  refine ⟨?_, ?_, ?_⟩
  · unfold _form_dataset_resources_lookup
    rw [h1, except_bind_ok]
    show (jsonIndex md "resources" >>= _) = _
    rw [hrs, except_bind_ok]
    exact foldlM_lookupStep_ok rs [] hwf
  · intro k
    exact dictGet_pyDictOfPairs (extractPairs rs) k
  · intro k
    rw [dictGet_pyDictOfPairs (extractPairs rs) k]
    exact lastValue_isSome_iff (extractPairs rs) k

/-- C2, witness: a concrete 200 document with a duplicated resource name
`a`; the mapping keeps keys `a` and `b` and maps `a` to the url of the
last `a` descriptor. -/
theorem C2_lookup_last_write_wins_witness :
    _form_dataset_resources_lookup "ds" "http://cat"
        ⟨200, Json.obj [("result", Json.obj [("resources", Json.arr
          [Json.obj [("name", Json.str "a"), ("url", Json.str "u1")],
           Json.obj [("name", Json.str "b"), ("url", Json.str "u2")],
           Json.obj [("name", Json.str "a"), ("url", Json.str "u3")]])])]⟩
        = Except.ok [(Json.str "a", Json.str "u3"), (Json.str "b", Json.str "u2")]
      ∧ dictGet [(Json.str "a", Json.str "u3"), (Json.str "b", Json.str "u2")]
          (Json.str "a")
        = some (Json.str "u3") :=
  ⟨(C2_lookup_last_write_wins "ds" "http://cat"
      (Json.obj [("result", Json.obj [("resources", Json.arr
        [Json.obj [("name", Json.str "a"), ("url", Json.str "u1")],
         Json.obj [("name", Json.str "b"), ("url", Json.str "u2")],
         Json.obj [("name", Json.str "a"), ("url", Json.str "u3")]])])])
      (Json.obj [("resources", Json.arr
        [Json.obj [("name", Json.str "a"), ("url", Json.str "u1")],
         Json.obj [("name", Json.str "b"), ("url", Json.str "u2")],
         Json.obj [("name", Json.str "a"), ("url", Json.str "u3")]])])
      [Json.obj [("name", Json.str "a"), ("url", Json.str "u1")],
       Json.obj [("name", Json.str "b"), ("url", Json.str "u2")],
       Json.obj [("name", Json.str "a"), ("url", Json.str "u3")]]
      rfl rfl (by decide)).1,
   ((C2_lookup_last_write_wins "ds" "http://cat"
      (Json.obj [("result", Json.obj [("resources", Json.arr
        [Json.obj [("name", Json.str "a"), ("url", Json.str "u1")],
         Json.obj [("name", Json.str "b"), ("url", Json.str "u2")],
         Json.obj [("name", Json.str "a"), ("url", Json.str "u3")]])])])
      (Json.obj [("resources", Json.arr
        [Json.obj [("name", Json.str "a"), ("url", Json.str "u1")],
         Json.obj [("name", Json.str "b"), ("url", Json.str "u2")],
         Json.obj [("name", Json.str "a"), ("url", Json.str "u3")]])])
      [Json.obj [("name", Json.str "a"), ("url", Json.str "u1")],
       Json.obj [("name", Json.str "b"), ("url", Json.str "u2")],
       Json.obj [("name", Json.str "a"), ("url", Json.str "u3")]]
      rfl rfl (by decide)).2.1 (Json.str "a"))⟩

/-- C5: a metadata response with HTTP 404 makes `_get_dataset_metadata`
fail with the not-found error naming both the dataset id and the
catalogue URL (its single request is the one response consumed here — the
source has no retry loop around it); `_form_dataset_resources_lookup`
propagates that error, so the orchestration's download plan is an error
and no download request is issued. -/
theorem C5_notFound_on_404 :
    ∀ (ds curl : String) (body : Json) (flt : Option (Json → Bool)),
      _get_dataset_metadata ds curl ⟨404, body⟩
          = Except.error (.datasetNotFound ds curl)
      ∧ _form_dataset_resources_lookup ds curl ⟨404, body⟩
          = Except.error (.datasetNotFound ds curl)
      ∧ downloadPlan ds curl ⟨404, body⟩ flt
          = Except.error (.datasetNotFound ds curl) := by
  intro ds curl body flt
  have h1 : _get_dataset_metadata ds curl ⟨404, body⟩
      = Except.error (.datasetNotFound ds curl) := by
    simp [_get_dataset_metadata]
  have h2 : _form_dataset_resources_lookup ds curl ⟨404, body⟩
      = Except.error (.datasetNotFound ds curl) := by
    unfold _form_dataset_resources_lookup
    rw [h1]
    rfl
  have h3 : downloadPlan ds curl ⟨404, body⟩ flt
      = Except.error (.datasetNotFound ds curl) := by
    unfold downloadPlan
    rw [h2]
    rfl
  exact ⟨h1, h2, h3⟩

/-- C6: a metadata response with a status that is neither 200 nor 404
makes `_get_dataset_metadata` return an absent result without raising;
`_form_dataset_resources_lookup` then fails with the unavailable error,
which is a different error from any not-found error; and the outcome
never looks at the response body. -/
theorem C6_unavailable_on_other_status (ds curl : String) (status : Nat)
    (body : Json) (h200 : status ≠ 200) (h404 : status ≠ 404) :
    _get_dataset_metadata ds curl ⟨status, body⟩ = Except.ok none
      ∧ _form_dataset_resources_lookup ds curl ⟨status, body⟩
          = Except.error (.datasetUnavailable ds)
      ∧ (∀ i u, DownloaderError.datasetUnavailable ds
            ≠ DownloaderError.datasetNotFound i u)
      ∧ (∀ body2, _get_dataset_metadata ds curl ⟨status, body⟩
            = _get_dataset_metadata ds curl ⟨status, body2⟩) := by
  have h1 : ∀ b : Json, _get_dataset_metadata ds curl ⟨status, b⟩ = Except.ok none := by
    intro b
    simp [_get_dataset_metadata, h200, h404]
  have h2 : _form_dataset_resources_lookup ds curl ⟨status, body⟩
      = Except.error (.datasetUnavailable ds) := by
    unfold _form_dataset_resources_lookup
    rw [h1 body]
    rfl
  refine ⟨h1 body, h2, ?_, ?_⟩
  · intro i u h
    exact DownloaderError.noConfusion h
  · intro body2
    rw [h1 body, h1 body2]

/-- C6, witness: instantiated at a concrete HTTP 500 response. -/
theorem C6_unavailable_on_other_status_witness :
    _get_dataset_metadata "ds" "http://cat" ⟨500, Json.null⟩ = Except.ok none
      ∧ _form_dataset_resources_lookup "ds" "http://cat" ⟨500, Json.null⟩
          = Except.error (.datasetUnavailable "ds")
      ∧ DownloaderError.datasetUnavailable "ds"
          ≠ DownloaderError.datasetNotFound "ds" "http://cat"
      ∧ _get_dataset_metadata "ds" "http://cat" ⟨500, Json.null⟩
          = _get_dataset_metadata "ds" "http://cat" ⟨500, Json.str "oops"⟩ := by
  have h := C6_unavailable_on_other_status "ds" "http://cat" 500 Json.null
    (by decide) (by decide)
  exact ⟨h.1, h.2.1, h.2.2.1 "ds" "http://cat", h.2.2.2 (Json.str "oops")⟩

/-- C8: the `X-CKAN-API-Key` header — built identically at both request
sites — is sent exactly when an API key is present; with the key absent
the transport sends no such header (the `requests` library deletes
`None`-valued headers), so the request is unauthenticated. -/
theorem C8_api_key_header_optional :
    (∀ k : String, sentHeaderList (ckanHeaderDict (some k))
        = [("X-CKAN-API-Key", k)])
    ∧ sentHeaderList (ckanHeaderDict none) = [] :=
  ⟨fun _ => rfl, rfl⟩

/-- C9: with name filter regex `^a`, the filtered resource list of the
mapping `a ↦ http://x/a.csv, b-report ↦ http://x/b.csv, ab ↦ http://x/c.csv`
keeps exactly `a` and `ab` (in mapping order) and drops `b-report`; and
with no filter supplied every resource is kept. -/
theorem C9_regex_filtering :
    filterResourceList (some reSearchCaretA)
        [("a", "http://x/a.csv"), ("b-report", "http://x/b.csv"),
         ("ab", "http://x/c.csv")]
      = [("a", "http://x/a.csv"), ("ab", "http://x/c.csv")]
    ∧ ∀ (κ ν : Type) (d : List (κ × ν)), filterResourceList none d = d := by
  constructor
  · decide
  · intro κ ν d
    simp [filterResourceList]

/-- C10: resolution is only total on well-formed metadata.  A 200
response whose JSON object lacks a `result` field escapes with the bare
`KeyError` (not a dataset error, not a mapping, not an absent result);
and a 200 document whose resources array contains a descriptor lacking
`name` or `url` makes the resolver escape with an unhandled Python lookup
error. -/
theorem C10_malformed_metadata_escapes :
    (∀ (ds curl : String) (kvs : List (String × Json)),
      kvs.find? (fun p => p.1 = "result") = none →
      _get_dataset_metadata ds curl ⟨200, Json.obj kvs⟩
          = Except.error (.keyError "result")
      ∧ _form_dataset_resources_lookup ds curl ⟨200, Json.obj kvs⟩
          = Except.error (.keyError "result"))
    ∧ (∀ (ds curl : String) (body md : Json) (rs : List Json),
      jsonIndex body "result" = Except.ok md →
      jsonIndex md "resources" = Except.ok (Json.arr rs) →
      rs.any (fun r => !wellFormedDescr r) = true →
      resultIsLookupErr
          (_form_dataset_resources_lookup ds curl ⟨200, body⟩) = true) := by
  constructor
  · intro ds curl kvs hfind
    have h1 : _get_dataset_metadata ds curl ⟨200, Json.obj kvs⟩
        = Except.error (.keyError "result") := by
      simp [_get_dataset_metadata, jsonIndex, hfind]
      rfl
    refine ⟨h1, ?_⟩
    unfold _form_dataset_resources_lookup
    rw [h1]
    rfl
  · intro ds curl body md rs hres hrs hbad
    have h1 : _get_dataset_metadata ds curl ⟨200, body⟩ = Except.ok (some md) := by
      simp [_get_dataset_metadata, hres]
      rfl
    unfold _form_dataset_resources_lookup
    rw [h1, except_bind_ok]
    show resultIsLookupErr (jsonIndex md "resources" >>= _) = true
    rw [hrs, except_bind_ok]
    exact foldlM_lookupStep_err rs [] hbad

/-- C10, witness: a 200 body without `result`, and a 200 document whose
single descriptor lacks `url`. -/
theorem C10_malformed_metadata_escapes_witness :
    (_get_dataset_metadata "ds" "http://cat" ⟨200, Json.obj [("x", Json.null)]⟩
        = Except.error (.keyError "result"))
    ∧ resultIsLookupErr
        (_form_dataset_resources_lookup "ds" "http://cat"
          ⟨200, Json.obj [("result", Json.obj [("resources", Json.arr
            [Json.obj [("name", Json.str "a")]])])]⟩) = true :=
  ⟨(C10_malformed_metadata_escapes.1 "ds" "http://cat" [("x", Json.null)] rfl).1,
   C10_malformed_metadata_escapes.2 "ds" "http://cat" _ _ _ rfl rfl (by decide)⟩
